import Mathlib

/-!
Verification development for the conversational context window manager of the
learn-nextjs-langchain2025 repository. The definitions below are a shallow
embedding of the two API routes
`src/app/api/chat_06_history_summary/route.ts` and
`src/app/api/chat_06_history_optimize/route.ts`: the token counter, the
trimming step, the per-turn prompt assembly, the streaming/persistence phase,
and the session bootstrap. Theorems at the end settle the frozen claims.
-/

set_option autoImplicit false

/-- Roles of chat messages. The TypeScript source distinguishes message roles
by the concrete class of the message object (`HumanMessage`, `AIMessage`,
`SystemMessage`, anything else); we carry the discriminant explicitly. -/
inductive Role
  | user
  | assistant
  | system
  | other
deriving DecidableEq, Repr

/-- One part of a structured message content array. The source maps a part to
`p.text` when `p.type === 'text'` and to `JSON.stringify(p)` otherwise; the
`nonText` constructor carries that stringified form. -/
inductive ContentPart
  | text (t : String)
  | nonText (json : String)
deriving DecidableEq, Repr

/-- Message content as handled by `strTokenCounter` in both routes: a plain
string, an array of parts, or any other value. For a non-string, non-array
value the source computes `String(content ?? '')`; the `otherVal` constructor
carries that string coercion. -/
inductive MessageContent
  | str (s : String)
  | parts (l : List ContentPart)
  | otherVal (coerced : String)
deriving DecidableEq, Repr

/-- A chat message. The `id` field models JavaScript object identity: each
message object loaded from a database row is a distinct object, which is what
the `Set`-based overflow computation in the summary route keys on. -/
structure Message where
  id : Nat
  role : Role
  content : MessageContent
deriving DecidableEq, Repr

/-- An encoder as used by the routes: `encode` maps a string to a token list;
the token count of a string is the length of that list. -/
def Encoder : Type := String → List Nat

/-- Embeds `getEncoder` (both routes): try the primary tokenizer profile and
fall back to the secondary one when the primary is unavailable; the
`.catch(() => encodingForModel("gpt-4"))` is the `Option.getD`. -/
def getEncoder (primary : Option Encoder) (fallback : Encoder) : Encoder :=
  primary.getD fallback

/-- The part-to-string mapping inside `strTokenCounter`:
`p.type === 'text' ? p.text : JSON.stringify(p)`. -/
def partToString : ContentPart → String
  | ContentPart.text t => t
  | ContentPart.nonText json => json

/-- Embeds `strTokenCounter` (both routes): a string is encoded directly; an
array of parts is mapped to strings and joined with a single space before
encoding; any other value is encoded via its string coercion. -/
def strTokenCounter (enc : Encoder) : MessageContent → Nat
  | MessageContent.str s => (enc s).length
  | MessageContent.parts l => (enc (String.intercalate " " (l.map partToString))).length
  | MessageContent.otherVal c => (enc c).length

/-- The string-coercion view of a content value: the exact string that
`strTokenCounter` hands to the encoder in each branch. -/
def contentToString : MessageContent → String
  | MessageContent.str s => s
  | MessageContent.parts l => String.intercalate " " (l.map partToString)
  | MessageContent.otherVal c => c

/-- The role label used by `tiktokenCounter`: `'user'`, `'assistant'`,
`'system'`, or `'unknown'` for any other message class. -/
def roleLabel : Role → String
  | Role.user => "user"
  | Role.assistant => "assistant"
  | Role.system => "system"
  | Role.other => "unknown"

/-- Token cost of a single message as accumulated by the loop body of
`tiktokenCounter`: tokens of the role label plus tokens of the content. -/
def msgTokens (enc : Encoder) (m : Message) : Nat :=
  strTokenCounter enc (MessageContent.str (roleLabel m.role)) + strTokenCounter enc m.content

/-- Embeds `tiktokenCounter` (both routes): fold over the message list adding
role tokens and content tokens of each message to a running total. -/
def tiktokenCounter (enc : Encoder) (messages : List Message) : Nat :=
  messages.foldl (fun total m => total + msgTokens enc m) 0

/-- Sum of a per-message cost over a list; the specification view of what the
`tiktokenCounter` fold computes. -/
def costSum (cost : Message → Nat) (l : List Message) : Nat :=
  (l.map cost).sum

/-- Modelled from the spec: the routes trim history with `trimMessages` from
the library package `@langchain/core` (strategy `'last'`), whose code is not
part of this repository. Following spec section 4.2, the `'last'` strategy
walks the history from the most recent message backward, accumulating token
cost, and stops (exclusive) at the first message that would push the
cumulative cost over the budget. This helper performs that walk on the
reversed history. -/
def takeWithinBudget (cost : Message → Nat) (budget : Nat) : List Message → Nat → List Message
  | [], _ => []
  | m :: rest, acc =>
    if acc + cost m ≤ budget then m :: takeWithinBudget cost budget rest (acc + cost m)
    else []

/-- Modelled from the spec: `WindowTrimmer.trim` with strategy `'last'` (the
library function `trimMessages` is not in this repository). The kept messages
are returned in original chronological order. -/
def trimMessagesLast (cost : Message → Nat) (budget : Nat) (history : List Message) : List Message :=
  (takeWithinBudget cost budget history.reverse 0).reverse

/-- The window the trimming step keeps for budget `b`, counting tokens with
`tiktokenCounter` exactly as both routes pass it to `trimMessages`. -/
def windowAt (enc : Encoder) (b : Nat) (history : List Message) : List Message :=
  trimMessagesLast (msgTokens enc) b history

/-- Embeds the overflow computation of the summary route:
`fullHistory.filter(m => !windowSet.has(m))` where `windowSet` is a `Set` of
the trimmed window (JavaScript object identity, modelled by `Message.id`). -/
def overflowAt (enc : Encoder) (b : Nat) (history : List Message) : List Message :=
  history.filter (fun m => !((windowAt enc b history).any (fun w => decide (w.id = m.id))))

/-- Embeds the filter predicate of the summary route, step 7:
`msg instanceof HumanMessage && msg.content === input`. -/
def isCurrentInput (input : String) (m : Message) : Bool :=
  decide (m.role = Role.user) && decide (m.content = MessageContent.str input)

/-- The trimmed window of the summary route (budget literal 1500). -/
def summaryTrimmedWindow (enc : Encoder) (history : List Message) : List Message :=
  windowAt enc 1500 history

/-- Embeds `recentWindowWithoutCurrentInput` of the summary route: the trimmed
window with every message equal to the current input (by role and content)
filtered out. -/
def summaryRecentWindow (enc : Encoder) (input : String) (history : List Message) : List Message :=
  (summaryTrimmedWindow enc history).filter (fun m => !(isCurrentInput input m))

/-- Embeds `recentWindow` of the optimize route, step 4: the trimmed history
when non-empty, with no filtering of the current input. -/
def optimizeRecentWindow (enc : Encoder) (history : List Message) : List Message :=
  if history.length > 0 then windowAt enc 1500 history else []

/-- A part of a UI message as received in the request body; `file` stands for
any part whose `type` is not `'text'`. -/
inductive UIPart
  | text (t : String)
  | file (d : String)
deriving DecidableEq, Repr

/-- A UI message from the request body: a role string and a list of parts. -/
structure UIMessage where
  role : String
  parts : List UIPart
deriving DecidableEq, Repr

/-- True for a part whose `type` is `'text'`. -/
def isTextPart : UIPart → Bool
  | UIPart.text _ => true
  | UIPart.file _ => false

/-- Embeds the title construction of the summary route, step 2: the first
user message is looked up; if it has parts and one of them is a text part,
the title is its first 50 characters with an ellipsis appended when the text
is longer than 50 characters; otherwise the title stays `'New Chat'`. -/
def summarySessionTitle (messages : List UIMessage) : String :=
  match messages.find? (fun m => m.role == "user") with
  | none => "New Chat"
  | some fm =>
    if fm.parts.isEmpty then "New Chat"
    else
      match fm.parts.find? isTextPart with
      | some (UIPart.text t) => t.take 50 ++ (if t.length > 50 then "..." else "")
      | _ => "New Chat"

/-- Embeds the title construction of `createSessionAndUpdateMessages` in the
optimize route: the title is the first 50 characters of the first part of the
first user message when that part is a text part, with no ellipsis. -/
def optimizeSessionTitle (messages : List UIMessage) : String :=
  match messages.find? (fun m => m.role == "user") with
  | none => "New Chat"
  | some fm =>
    match fm.parts.head? with
    | some (UIPart.text t) => t.take 50
    | _ => "New Chat"

/-- Embeds the session id placed in the `x-session-id` response header by the
summary route: the supplied session id, or, when none was supplied, the id
returned by the `INSERT INTO chat_sessions ... RETURNING id` query. -/
def summaryHeaderSessionId (sessionId : Option String) (insertedId : String) : String :=
  match sessionId with
  | some s => s
  | none => insertedId

/-- Embeds the session id placed in the `x-session-id` response header by the
optimize route: the supplied session id, or the freshly generated temporary
uuid for a new session (the permanent id is only created after streaming). -/
def optimizeHeaderSessionId (sessionId : Option String) (tempId : String) : String :=
  match sessionId with
  | some s => s
  | none => tempId

/-- Observable events of a route invocation, in program order. -/
inductive Ev
  | sessionInsert
  | summaryRead
  | historyRead
  | reject400
  | error500
  | modelCall
  | userWrite
deriving DecidableEq, Repr

/-- Embeds the control flow of the summary route up to and including the
input check (steps 2 to 10): for a new session the title is computed and the
session row inserted (a missing userId throws, surfacing as a 500); the
summary and the history are then read; only after that is the extracted input
checked, rejecting with status 400 when empty; otherwise the model stream is
started and the user message appended. -/
def summaryRoutePrologue (hasSession hasUserId : Bool) (input : String) : List Ev :=
  if !hasSession && !hasUserId then [Ev.error500]
  else
    (if hasSession then [] else [Ev.sessionInsert])
      ++ [Ev.summaryRead, Ev.historyRead]
      ++ (if input == "" then [Ev.reject400] else [Ev.modelCall, Ev.userWrite])

/-- Embeds the control flow of the optimize route up to and including the
input check (steps 1 to 6): summary and history are read only for an existing
session; the input check then rejects empty input with status 400; otherwise
the user message is appended and the model stream started. -/
def optimizeRoutePrologue (hasSession : Bool) (input : String) : List Ev :=
  (if hasSession then [Ev.summaryRead, Ev.historyRead] else [])
    ++ (if input == "" then [Ev.reject400] else [Ev.userWrite, Ev.modelCall])

/-- True for events that touch the persistent stores. -/
def isStorageEv : Ev → Bool
  | Ev.sessionInsert => true
  | Ev.summaryRead => true
  | Ev.historyRead => true
  | Ev.userWrite => true
  | _ => false

/-- True for events that call the completion service. -/
def isModelEv : Ev → Bool
  | Ev.modelCall => true
  | _ => false

/-- The property claimed of input validation: whenever the trace rejects the
input, no storage operation and no model call precedes the rejection. -/
def rejectsBeforeEffects (t : List Ev) : Bool :=
  !(t.contains Ev.reject400)
    || (t.takeWhile (fun x => !(x == Ev.reject400))).all
        (fun e => !(isStorageEv e) && !(isModelEv e))

/-- Effects observable after a route has produced (or failed to produce) its
response stream. `emitted` are the chunks the client received; `closed` and
`errored` describe how the response stream ended; the remaining fields record
what was written to the stores and what was logged. -/
structure RouteEffects where
  emitted : List String
  userAppended : Bool
  appendedAI : Option String
  summaryWrite : Option String
  sessionCreated : Bool
  rekeyed : Bool
  closed : Bool
  errored : Bool
  logs : List String
deriving DecidableEq, Repr

/-- Embeds the streaming phase of the summary route (steps 10 to 14): the
user message was already appended before the stream; chunks are forwarded
while accumulating `assistantText`; a stream failure hits the outer catch,
which calls `controller.error` without logging; on success, a non-empty
`assistantText` is appended as an `AIMessage` (a failure there also hits the
outer catch, before `controller.close` is reached), then the summary merge
runs inside its own try whose catch only warns; finally the stream is closed.
`chunks` are the chunks yielded before any failure, `streamFails` says the
completion stream threw after them, `appendOk` says the append succeeded, and
`merge` is the merged summary, or `none` when the merge call failed. -/
def summaryStreamRun (chunks : List String) (streamFails appendOk : Bool)
    (merge : Option String) : RouteEffects :=
  let text := String.join chunks
  if streamFails then
    ⟨chunks, true, none, none, false, false, false, true, []⟩
  else if text == "" then
    ⟨chunks, true, none, none, false, false, true, false, []⟩
  else if !appendOk then
    ⟨chunks, true, none, none, false, false, false, true, []⟩
  else
    match merge with
    | some s => ⟨chunks, true, some text, some s, false, false, true, false, []⟩
    | none => ⟨chunks, true, some text, none, false, false, true, false, ["update summary failed"]⟩

/-- Outcome of `createSessionAndUpdateMessages` in the optimize route: a
missing userId only logs and returns; a failing `INSERT` throws before any
row exists; a failing `UPDATE` throws after the session row was created, so
the messages keep the temporary session id. -/
structure SessionStep where
  created : Bool
  rekeyed : Bool
  logs : List String
  threw : Bool
deriving DecidableEq, Repr

/-- Embeds `createSessionAndUpdateMessages` of the optimize route. -/
def createSessionStep (hasUserId insertOk updateOk : Bool) : SessionStep :=
  if !hasUserId then ⟨false, false, ["Cannot save session without a User ID."], false⟩
  else if !insertOk then ⟨false, false, ["Error in createSessionAndUpdateMessages"], true⟩
  else if !updateOk then ⟨true, false, ["Error in createSessionAndUpdateMessages"], true⟩
  else ⟨true, true, [], false⟩

/-- Embeds the response stream of the optimize route (step 6 and the helper
functions): chunks are forwarded while accumulating `assistantText`; a stream
failure hits the catch, which logs and calls `controller.error`; on success
the stream is closed first, and only then, when `assistantText` is non-empty,
the background block runs: append the `AIMessage`, then either create the
permanent session and re-key the messages (new session) or merge and write
the summary (existing session); any background failure is caught and logged
without affecting the already-completed response. -/
def optimizeRun (chunks : List String) (streamFails isNew hasUserId appendOk insertOk updateOk summaryOk : Bool)
    (merged : String) : RouteEffects :=
  let text := String.join chunks
  if streamFails then
    ⟨chunks, true, none, none, false, false, false, true, ["Stream error"]⟩
  else if text == "" then
    ⟨chunks, true, none, none, false, false, true, false, []⟩
  else if !appendOk then
    ⟨chunks, true, none, none, false, false, true, false, ["Background task error"]⟩
  else if isNew then
    let r := createSessionStep hasUserId insertOk updateOk
    ⟨chunks, true, some text, none, r.created, r.rekeyed, true, false,
      r.logs ++ (if r.threw then ["Background task error"] else [])⟩
  else if summaryOk then
    ⟨chunks, true, some text, some merged, false, false, true, false, []⟩
  else
    ⟨chunks, true, some text, none, false, false, true, false,
      ["Failed to update summary", "Background task error"]⟩

/-- The prompt-relevant result of assembling a turn in the summary route,
together with the warnings logged while assembling. -/
structure AssembledTurn where
  summary : String
  window : List Message
  input : String
  logs : List String
deriving DecidableEq, Repr

/-- Embeds `[persistedSummary, overflowSummary].filter(Boolean).join('\n')`:
empty strings are dropped and the rest joined with a newline. -/
def joinNonEmpty (parts : List String) : String :=
  String.intercalate "\n" (parts.filter (fun s => !(s == "")))

/-- Embeds steps 7 and 8 of the summary route: for an existing session with a
non-empty history, the history is trimmed, the current input filtered out of
the window, and the overflow computed; when the overflow is non-empty the
condensation call runs inside a try whose catch only warns, leaving the
overflow summary empty. The summary for the turn joins the persisted summary
with the overflow summary, dropping empty parts. `call` is the condensation
result, `Except.error` when that call raised or timed out. -/
def summaryAssemble (enc : Encoder) (hasSession : Bool) (persisted : String)
    (history : List Message) (input : String) (call : Except Unit String) : AssembledTurn :=
  if hasSession && !history.isEmpty then
    let window := summaryRecentWindow enc input history
    let overflow := overflowAt enc 1500 history
    if overflow.isEmpty then
      ⟨joinNonEmpty [persisted, ""], window, input, []⟩
    else
      match call with
      | Except.ok s => ⟨joinNonEmpty [persisted, s], window, input, []⟩
      | Except.error _ => ⟨joinNonEmpty [persisted, ""], window, input, ["overflow summary failed"]⟩
  else ⟨joinNonEmpty [persisted, ""], [], input, []⟩

/-- An encoder for concrete witnesses: every string is one token. -/
def oneTokenEnc : Encoder := fun _ => [1]

/-- A concrete user message whose content is the string `hi`. -/
def demoMsgHi : Message := ⟨0, Role.user, MessageContent.str "hi"⟩

/-- A concrete one-message history containing the current input. -/
def demoHistoryHi : List Message := [demoMsgHi]

/-- A concrete two-message history with distinct ids. -/
def demoHistoryTwo : List Message :=
  [⟨0, Role.user, MessageContent.str "a"⟩, ⟨1, Role.assistant, MessageContent.str "b"⟩]

/-- A concrete 51-character text for the title counterexample. -/
def demoLongText : String := "aaaaaaaaaaaaaaaaaaaaaaaaaaaaaaaaaaaaaaaaaaaaaaaaaab"

/-- A concrete request message list whose first user message is 51 characters. -/
def demoLongMessages : List UIMessage := [⟨"user", [UIPart.text demoLongText]⟩]

section Lemmas

/-- The fold of `tiktokenCounter` computes an initial total plus the cost sum. -/
theorem tiktoken_foldl (enc : Encoder) :
    ∀ (l : List Message) (t : Nat),
      l.foldl (fun total m => total + msgTokens enc m) t = t + costSum (msgTokens enc) l
  | [], t => by simp [costSum]
  | m :: rest, t => by
    have ih := tiktoken_foldl enc rest (t + msgTokens enc m)
    simp only [List.foldl_cons, ih, costSum, List.map_cons, List.sum_cons]
    omega

/-- `tiktokenCounter` is the cost sum of `msgTokens`. -/
theorem tiktokenCounter_eq_costSum (enc : Encoder) (l : List Message) :
    tiktokenCounter enc l = costSum (msgTokens enc) l := by
  simpa [tiktokenCounter] using tiktoken_foldl enc l 0

/-- Reversal does not change the cost sum. -/
theorem costSum_reverse (cost : Message → Nat) (l : List Message) :
    costSum cost l.reverse = costSum cost l := by
  simp [costSum, List.map_reverse, List.sum_reverse]

/-- The budget walk never accumulates past the budget: starting from an
in-budget total, the total plus the cost of everything kept stays in budget. -/
theorem takeWithinBudget_le (cost : Message → Nat) (budget : Nat) :
    ∀ (l : List Message) (acc : Nat), acc ≤ budget →
      acc + costSum cost (takeWithinBudget cost budget l acc) ≤ budget
  | [], acc, h => by simpa [takeWithinBudget, costSum] using h
  | m :: rest, acc, h => by
    by_cases hc : acc + cost m ≤ budget
    · have ih := takeWithinBudget_le cost budget rest (acc + cost m) hc
      simp only [takeWithinBudget, if_pos hc, costSum, List.map_cons, List.sum_cons] at ih ⊢
      omega
    · simpa [takeWithinBudget, if_neg hc, costSum] using h

/-- Everything the budget walk keeps comes from the input list. -/
theorem takeWithinBudget_mem (cost : Message → Nat) (budget : Nat) :
    ∀ (l : List Message) (acc : Nat) (m : Message),
      m ∈ takeWithinBudget cost budget l acc → m ∈ l
  | [], _, _, h => by simp [takeWithinBudget] at h
  | x :: rest, acc, m, h => by
    by_cases hc : acc + cost x ≤ budget
    · simp only [takeWithinBudget, if_pos hc, List.mem_cons] at h
      rcases h with h | h
      · exact h ▸ List.mem_cons_self x rest
      · exact List.mem_cons_of_mem x (takeWithinBudget_mem cost budget rest (acc + cost x) m h)
    · simp [takeWithinBudget, if_neg hc] at h

/-- The budget walk keeps a prefix of its input list. -/
theorem takeWithinBudget_take (cost : Message → Nat) (budget : Nat) :
    ∀ (l : List Message) (acc : Nat),
      ∃ n, takeWithinBudget cost budget l acc = l.take n
  | [], acc => ⟨0, rfl⟩
  | m :: rest, acc => by
    by_cases hc : acc + cost m ≤ budget
    · obtain ⟨n, hn⟩ := takeWithinBudget_take cost budget rest (acc + cost m)
      exact ⟨n + 1, by simp [takeWithinBudget, if_pos hc, hn]⟩
    · exact ⟨0, by simp [takeWithinBudget, if_neg hc]⟩

/-- The trimmed window is a chronological suffix: some prefix of the history
concatenated with the window reproduces the history. -/
theorem trimMessagesLast_suffix (cost : Message → Nat) (budget : Nat) (history : List Message) :
    ∃ pre, pre ++ trimMessagesLast cost budget history = history := by
  obtain ⟨n, hn⟩ := takeWithinBudget_take cost budget history.reverse 0
  refine ⟨(history.reverse.drop n).reverse, ?_⟩
  calc (history.reverse.drop n).reverse ++ trimMessagesLast cost budget history
      = (history.reverse.drop n).reverse ++ (history.reverse.take n).reverse := by
        rw [trimMessagesLast, hn]
    _ = (history.reverse.take n ++ history.reverse.drop n).reverse := by
        rw [List.reverse_append]
    _ = history := by rw [List.take_append_drop, List.reverse_reverse]

end Lemmas

/-- Dropping an empty string from the nonempty-join changes nothing. -/
theorem joinNonEmpty_pair_empty (p : String) : joinNonEmpty [p, ""] = joinNonEmpty [p] := by
  simp [joinNonEmpty, List.filter]

/-- C1: for every ordered history and budget, the window returned by the
`'last'` trimming strategy has total token count (role plus content per
message, summed by `tiktokenCounter`) at most the budget, and contains only
whole messages of the history, never a partially-truncated one. -/
theorem c1_window_within_budget (enc : Encoder) (B : Nat) (H : List Message) :
    tiktokenCounter enc (windowAt enc B H) ≤ B
    ∧ (windowAt enc B H).all (fun m => decide (m ∈ H)) = true := by
  constructor
  · have h := takeWithinBudget_le (msgTokens enc) B H.reverse 0 (Nat.zero_le B)
    rw [tiktokenCounter_eq_costSum]
    unfold windowAt trimMessagesLast
    rw [costSum_reverse]
    omega
  · rw [List.all_eq_true]
    intro m hm
    apply decide_eq_true
    have hmem : m ∈ takeWithinBudget (msgTokens enc) B H.reverse 0 := by
      simpa [windowAt, trimMessagesLast, List.mem_reverse] using hm
    exact List.mem_reverse.mp (takeWithinBudget_mem (msgTokens enc) B H.reverse 0 m hmem)

/-- Filtering away everything whose id occurs in the suffix keeps exactly the
prefix, provided ids of prefix and suffix do not overlap. -/
theorem filter_skip_window (pre W : List Message)
    (hdisj : ∀ m ∈ pre, ∀ w ∈ W, w.id ≠ m.id) :
    (pre ++ W).filter (fun m => !(W.any (fun w => decide (w.id = m.id)))) = pre := by
  rw [List.filter_append]
  have h1 : W.filter (fun m => !(W.any (fun w => decide (w.id = m.id)))) = [] := by
    rw [List.filter_eq_nil_iff]
    intro w hw
    have hany : W.any (fun x => decide (x.id = w.id)) = true :=
      List.any_eq_true.mpr ⟨w, hw, decide_eq_true rfl⟩
    simp [hany]
  have h2 : pre.filter (fun m => !(W.any (fun w => decide (w.id = m.id)))) = pre := by
    rw [List.filter_eq_self]
    intro m hm
    have hany : W.any (fun w => decide (w.id = m.id)) = false := by
      rw [List.any_eq_false]
      intro w hw
      simpa using hdisj m hm w hw
    simp [hany]
  rw [h1, h2, List.append_nil]

/-- C2: for every history with pairwise-distinct object identities and every
budget, the trimmed window and the identity-filtered overflow partition the
history: their concatenation reproduces the history and no message lies in
both. -/
theorem c2_window_overflow_partition (enc : Encoder) (b : Nat) (H : List Message)
    (hids : (H.map Message.id).Nodup) :
    overflowAt enc b H ++ windowAt enc b H = H
    ∧ (overflowAt enc b H).all (fun m => !(decide (m ∈ windowAt enc b H))) = true := by
  obtain ⟨pre, hpre⟩ := trimMessagesLast_suffix (msgTokens enc) b H
  have hW : windowAt enc b H = trimMessagesLast (msgTokens enc) b H := rfl
  have hsplit : pre ++ windowAt enc b H = H := by rw [hW]; exact hpre
  have hdisj : ∀ m ∈ pre, ∀ w ∈ windowAt enc b H, w.id ≠ m.id := by
    intro m hm w hw heq
    have hn : ((pre ++ windowAt enc b H).map Message.id).Nodup := by
      rw [hsplit]; exact hids
    rw [List.map_append] at hn
    rcases List.nodup_append.mp hn with ⟨_, _, hd⟩
    exact hd (List.mem_map_of_mem Message.id hm) (heq ▸ List.mem_map_of_mem Message.id hw)
  have hover : overflowAt enc b H = pre := by
    have hx := filter_skip_window pre (windowAt enc b H) hdisj
    rw [hsplit] at hx
    exact hx
  constructor
  · rw [hover]; exact hsplit
  · rw [List.all_eq_true]
    intro m hm
    have hmpre : m ∈ pre := hover ▸ hm
    have : m ∉ windowAt enc b H := by
      intro hmw
      exact hdisj m hmpre m hmw rfl
    simpa using this

/-- Witness for C2 at a concrete two-message history with distinct ids. -/
theorem c2_window_overflow_partition_witness :
    ((demoHistoryTwo.map Message.id).Nodup)
    ∧ (overflowAt oneTokenEnc 1500 demoHistoryTwo ++ windowAt oneTokenEnc 1500 demoHistoryTwo
        = demoHistoryTwo
       ∧ (overflowAt oneTokenEnc 1500 demoHistoryTwo).all
          (fun m => !(decide (m ∈ windowAt oneTokenEnc 1500 demoHistoryTwo))) = true) :=
  ⟨by decide, c2_window_overflow_partition oneTokenEnc 1500 demoHistoryTwo (by decide)⟩

/-- C3 counterexample: in the optimize route the trimmed window is used with
no filter, so a history message equal to the current input `hi` (same role,
same content) stays in the window handed to the prompt. -/
theorem c3_counterexample_optimize_window_keeps_input :
    optimizeRecentWindow oneTokenEnc demoHistoryHi = [demoMsgHi]
    ∧ isCurrentInput "hi" demoMsgHi = true := by
  constructor
  · decide
  · decide

/-- C3 amended: only the summary route filters the current input out of the
trimmed window by content-and-role equality; after that filter no message of
the window equals the current input. -/
theorem c3_amended_summary_window_filters_input (enc : Encoder) (input : String)
    (H : List Message) :
    (summaryRecentWindow enc input H).all (fun m => !(isCurrentInput input m)) = true := by
  rw [List.all_eq_true]
  intro m hm
  simpa using (List.mem_filter.mp hm).2

set_option maxRecDepth 4000 in
/-- C4 counterexample: in the optimize route a 51-character first user message
yields a title of its first 50 characters with no ellipsis, so the title is
not the first 50 characters followed by an ellipsis. -/
theorem c4_counterexample_optimize_title_no_ellipsis :
    demoLongText.length > 50
    ∧ optimizeSessionTitle demoLongMessages = demoLongText.take 50
    ∧ (optimizeSessionTitle demoLongMessages == demoLongText.take 50 ++ "...") = false := by
  refine ⟨by decide, by decide, by decide⟩

/-- C4 amended: the summary route titles a new session with the first 50
characters of the first user message plus an ellipsis when longer, and echoes
the inserted session id in the `x-session-id` header; the optimize route
truncates to 50 characters with no ellipsis and its header carries the
request-scoped temporary id. -/
theorem c4_amended_session_titles (t : String) (sid tempId : String) :
    summarySessionTitle [⟨"user", [UIPart.text t]⟩]
        = t.take 50 ++ (if t.length > 50 then "..." else "")
    ∧ optimizeSessionTitle [⟨"user", [UIPart.text t]⟩] = t.take 50
    ∧ summaryHeaderSessionId none sid = sid
    ∧ optimizeHeaderSessionId none tempId = tempId := by
  exact ⟨rfl, rfl, rfl, rfl⟩

/-- C5: when the overflow condensation call fails, the assembled turn still
carries the old persisted summary with no overflow digest and the original
input; when the summary merge fails after a successful stream, the stream
still closes without error, no summary is written, and the failure is logged. -/
theorem c5_summarizer_failure_tolerated (enc : Encoder) (hasSession : Bool)
    (persisted : String) (H : List Message) (input : String)
    (chunks : List String) (h : String.join chunks ≠ "") :
    (summaryAssemble enc hasSession persisted H input (Except.error ())).summary
        = joinNonEmpty [persisted]
    ∧ (summaryAssemble enc hasSession persisted H input (Except.error ())).input = input
    ∧ (summaryStreamRun chunks false true none).closed = true
    ∧ (summaryStreamRun chunks false true none).errored = false
    ∧ (summaryStreamRun chunks false true none).summaryWrite = none
    ∧ (summaryStreamRun chunks false true none).logs = ["update summary failed"] := by
  have hb : (String.join chunks == "") = false := by
    exact beq_eq_false_iff_ne.mpr h
  have hassemble :
      (summaryAssemble enc hasSession persisted H input (Except.error ())).summary
          = joinNonEmpty [persisted]
      ∧ (summaryAssemble enc hasSession persisted H input (Except.error ())).input = input := by
    unfold summaryAssemble
    by_cases h1 : (hasSession && !H.isEmpty) = true
    · by_cases h2 : (overflowAt enc 1500 H).isEmpty = true
      · simp [h1, h2, joinNonEmpty_pair_empty]
      · simp [h1, h2, joinNonEmpty_pair_empty]
    · simp [h1, joinNonEmpty_pair_empty]
  refine ⟨hassemble.1, hassemble.2, ?_, ?_, ?_, ?_⟩ <;>
    simp [summaryStreamRun, hb]

/-- Witness for C5 at a concrete non-empty assistant response. -/
theorem c5_summarizer_failure_tolerated_witness :
    String.join ["hi"] ≠ ""
    ∧ ((summaryAssemble oneTokenEnc true "old" [] "q" (Except.error ())).summary
          = joinNonEmpty ["old"]
       ∧ (summaryAssemble oneTokenEnc true "old" [] "q" (Except.error ())).input = "q"
       ∧ (summaryStreamRun ["hi"] false true none).closed = true
       ∧ (summaryStreamRun ["hi"] false true none).errored = false
       ∧ (summaryStreamRun ["hi"] false true none).summaryWrite = none
       ∧ (summaryStreamRun ["hi"] false true none).logs = ["update summary failed"]) :=
  ⟨by decide, c5_summarizer_failure_tolerated oneTokenEnc true "old" [] "q" ["hi"] (by decide)⟩

/-- C6 counterexample: in the summary route a new-session request with empty
input inserts the session row and reads summary and history before the 400
rejection, so the rejection does not precede every storage operation. -/
theorem c6_counterexample_storage_before_reject :
    summaryRoutePrologue false true "" = [Ev.sessionInsert, Ev.summaryRead, Ev.historyRead, Ev.reject400]
    ∧ rejectsBeforeEffects (summaryRoutePrologue false true "") = false := by
  exact ⟨by decide, by decide⟩

/-- C6 amended: an empty-input request is rejected with a client-error status
before any model call and before any message write, but session creation and
the summary and history reads happen first; a new-session request missing the
userId surfaces as a server error instead of a client error. -/
theorem c6_amended_reject_before_model_and_writes :
    ∀ hasSession hasUserId : Bool,
      (summaryRoutePrologue hasSession hasUserId "").contains Ev.modelCall = false
      ∧ (summaryRoutePrologue hasSession hasUserId "").contains Ev.userWrite = false
      ∧ ((summaryRoutePrologue hasSession hasUserId "").contains Ev.reject400 = true
         ∨ summaryRoutePrologue hasSession hasUserId "" = [Ev.error500])
      ∧ (optimizeRoutePrologue hasSession "").contains Ev.modelCall = false
      ∧ (optimizeRoutePrologue hasSession "").contains Ev.userWrite = false
      ∧ (optimizeRoutePrologue hasSession "").contains Ev.reject400 = true := by
  decide

/-- C7 counterexample: in the summary route a failure while appending the
assistant message is caught by the outer catch, which errors the response
stream before `controller.close` is reached and logs nothing, so the HTTP
response does not complete. -/
theorem c7_counterexample_append_failure_errors_stream :
    (summaryStreamRun ["hello"] false false none).closed = false
    ∧ (summaryStreamRun ["hello"] false false none).errored = true
    ∧ (summaryStreamRun ["hello"] false false none).logs = [] := by
  exact ⟨by decide, by decide, by decide⟩

/-- C7 amended: in the optimize route, which closes the stream before
persisting, an append failure after a fully-streamed response leaves the
response completed without error and is logged, and a summary-update failure
leaves the appended assistant message intact, writes no summary and is
logged; in the summary route an append failure instead errors the response
stream before close. -/
theorem c7_amended_optimize_best_effort (chunks : List String)
    (isNew hasUserId insertOk updateOk : Bool) (merged : String)
    (h : String.join chunks ≠ "") :
    (optimizeRun chunks false isNew hasUserId false insertOk updateOk true merged).closed = true
    ∧ (optimizeRun chunks false isNew hasUserId false insertOk updateOk true merged).errored = false
    ∧ (optimizeRun chunks false isNew hasUserId false insertOk updateOk true merged).logs ≠ []
    ∧ (optimizeRun chunks false false hasUserId true insertOk updateOk false merged).closed = true
    ∧ (optimizeRun chunks false false hasUserId true insertOk updateOk false merged).errored = false
    ∧ (optimizeRun chunks false false hasUserId true insertOk updateOk false merged).appendedAI
        = some (String.join chunks)
    ∧ (optimizeRun chunks false false hasUserId true insertOk updateOk false merged).summaryWrite = none
    ∧ (optimizeRun chunks false false hasUserId true insertOk updateOk false merged).logs ≠ [] := by
  have hb : (String.join chunks == "") = false := beq_eq_false_iff_ne.mpr h
  refine ⟨?_, ?_, ?_, ?_, ?_, ?_, ?_, ?_⟩ <;> simp [optimizeRun, hb]

/-- Witness for C7 amended at a concrete non-empty streamed response. -/
theorem c7_amended_optimize_best_effort_witness :
    String.join ["hi"] ≠ ""
    ∧ ((optimizeRun ["hi"] false true true false true true true "m").closed = true
       ∧ (optimizeRun ["hi"] false true true false true true true "m").errored = false
       ∧ (optimizeRun ["hi"] false true true false true true true "m").logs ≠ []
       ∧ (optimizeRun ["hi"] false false true true true true false "m").closed = true
       ∧ (optimizeRun ["hi"] false false true true true true false "m").errored = false
       ∧ (optimizeRun ["hi"] false false true true true true false "m").appendedAI
           = some (String.join ["hi"])
       ∧ (optimizeRun ["hi"] false false true true true true false "m").summaryWrite = none
       ∧ (optimizeRun ["hi"] false false true true true true false "m").logs ≠ []) :=
  ⟨by decide, c7_amended_optimize_best_effort ["hi"] true true true true "m" (by decide)⟩

/-- C8: if the completion stream errors after emitting some chunks, in both
routes the already-emitted chunks stand, the response stream is errored, and
neither an assistant message nor a summary is persisted for that turn. -/
theorem c8_midstream_error_no_assistant_persisted (chunks : List String)
    (isNew hasUserId appendOk insertOk updateOk summaryOk appendOk2 : Bool)
    (merged : String) (merge2 : Option String) :
    (optimizeRun chunks true isNew hasUserId appendOk insertOk updateOk summaryOk merged).emitted = chunks
    ∧ (optimizeRun chunks true isNew hasUserId appendOk insertOk updateOk summaryOk merged).appendedAI = none
    ∧ (optimizeRun chunks true isNew hasUserId appendOk insertOk updateOk summaryOk merged).summaryWrite = none
    ∧ (optimizeRun chunks true isNew hasUserId appendOk insertOk updateOk summaryOk merged).errored = true
    ∧ (summaryStreamRun chunks true appendOk2 merge2).emitted = chunks
    ∧ (summaryStreamRun chunks true appendOk2 merge2).appendedAI = none
    ∧ (summaryStreamRun chunks true appendOk2 merge2).summaryWrite = none
    ∧ (summaryStreamRun chunks true appendOk2 merge2).errored = true := by
  exact ⟨rfl, rfl, rfl, rfl, rfl, rfl, rfl, rfl⟩

/-- C9: for every encoder choice (primary available or the fallback profile)
and every content value, the token counter is total, equals the token length
of the string coercion of the content, and is a non-negative integer. -/
theorem c9_token_counter_total_nonneg (primary : Option Encoder) (fallback : Encoder)
    (c : MessageContent) :
    strTokenCounter (getEncoder primary fallback) c
        = ((getEncoder primary fallback) (contentToString c)).length
    ∧ (0 : Int) ≤ (strTokenCounter (getEncoder primary fallback) c : Int) := by
  refine ⟨?_, Int.natCast_nonneg _⟩
  cases c <;> rfl

/-- C10: when the stream finishes successfully but the accumulated assistant
text is empty, the optimize route closes the response and writes nothing: no
assistant message, no summary update, no permanent session record, and no
re-keying of the messages stored under the temporary session id. -/
theorem c10_empty_assistant_writes_nothing (chunks : List String)
    (isNew hasUserId appendOk insertOk updateOk summaryOk : Bool) (merged : String)
    (h : String.join chunks = "") :
    (optimizeRun chunks false isNew hasUserId appendOk insertOk updateOk summaryOk merged).appendedAI = none
    ∧ (optimizeRun chunks false isNew hasUserId appendOk insertOk updateOk summaryOk merged).summaryWrite = none
    ∧ (optimizeRun chunks false isNew hasUserId appendOk insertOk updateOk summaryOk merged).sessionCreated = false
    ∧ (optimizeRun chunks false isNew hasUserId appendOk insertOk updateOk summaryOk merged).rekeyed = false
    ∧ (optimizeRun chunks false isNew hasUserId appendOk insertOk updateOk summaryOk merged).closed = true
    ∧ (optimizeRun chunks false isNew hasUserId appendOk insertOk updateOk summaryOk merged).errored = false
    ∧ (optimizeRun chunks false isNew hasUserId appendOk insertOk updateOk summaryOk merged).logs = [] := by
  have hb : (String.join chunks == "") = true := beq_iff_eq.mpr h
  refine ⟨?_, ?_, ?_, ?_, ?_, ?_, ?_⟩ <;> simp [optimizeRun, hb]

/-- Witness for C10 at the empty chunk list. -/
theorem c10_empty_assistant_writes_nothing_witness :
    String.join ([] : List String) = ""
    ∧ ((optimizeRun [] false true true true true true true "m").appendedAI = none
       ∧ (optimizeRun [] false true true true true true true "m").summaryWrite = none
       ∧ (optimizeRun [] false true true true true true true "m").sessionCreated = false
       ∧ (optimizeRun [] false true true true true true true "m").rekeyed = false
       ∧ (optimizeRun [] false true true true true true true "m").closed = true
       ∧ (optimizeRun [] false true true true true true true "m").errored = false
       ∧ (optimizeRun [] false true true true true true true "m").logs = []) :=
  ⟨rfl, c10_empty_assistant_writes_nothing [] true true true true true true "m" rfl⟩
